import Mathlib

/-!
Verification development for the gap-down ETF trading engine
(streamlit_kite_etf_trader.py).

The durable SQLite tables are modelled as Lean lists of rows; the
`positions` table is keyed by `symbol` (TEXT PRIMARY KEY), which is
modelled as the well-formedness predicate `positionsWF` (no duplicate
symbols).  Prices and capital amounts are modelled as exact rationals
(the comparisons in the source are plain numeric comparisons); Python
`int(x)` truncation toward zero is modelled by `pyInt`.  Timestamps and
free-form JSON metadata are opaque to the engine and are not modelled;
notification texts are abstracted to plain strings (only their
occurrence matters to the engine).
-/

namespace ETFTrader

/-- Status values stored in the `status` column of the `positions` table.
`WATCHING` is listed in the data model; the code writes `BOUGHT`,
`ALERTED`, `TARGET_HIT` and `SOLD`. -/
inductive PosStatus where
  | WATCHING
  | BOUGHT
  | ALERTED
  | TARGET_HIT
  | SOLD
deriving DecidableEq, Repr

/-- One row of the `positions` table (init_db, lines 214-226):
symbol TEXT PRIMARY KEY, qty INTEGER, avg_buy_price REAL,
buy_timestamp TEXT, target_price REAL, status TEXT, product TEXT. -/
structure Position where
  symbol : String
  qty : Int
  avg_buy_price : Rat
  buy_timestamp : String
  target_price : Rat
  status : PosStatus
  product : String
deriving DecidableEq, Repr

/-- The `positions` table as a list of rows. -/
abbrev PositionsTable := List Position

/-- Well-formedness of the `positions` table: `symbol` is the PRIMARY KEY,
so no two rows share a symbol. -/
def positionsWF (t : PositionsTable) : Prop :=
  (t.map Position.symbol).Nodup

/-- Status values stored in the `status` column of the `gtt_orders`
table: ACTIVE, TRIGGERED, CANCELLED, COMPLETED. -/
inductive GttStatus where
  | ACTIVE
  | TRIGGERED
  | CANCELLED
  | COMPLETED
deriving DecidableEq, Repr

/-- One row of the `gtt_orders` table (init_db, lines 233-252); the
columns not consulted by the modelled operations (timestamps, meta JSON)
are omitted as opaque. -/
structure GttOrder where
  symbol : String
  gtt_id : String
  trigger_type : String
  trigger_price : Rat
  order_type : String
  quantity : Int
  price : Option Rat
  condition : String
  status : GttStatus
deriving DecidableEq, Repr

/-- One row of the append-only `trades` audit table (init_db, lines
199-213); timestamp and the JSON `extra` blob are opaque and omitted. -/
structure TradeRow where
  symbol : String
  qty : Int
  side : String
  price : Rat
  order_id : String
  dry_run : Bool
deriving DecidableEq, Repr

/-- `upsert_position` (lines 279-293): if a row with the symbol exists,
UPDATE overwrites qty, avg_buy_price, buy_timestamp, target_price,
status and product (every non-key field); otherwise INSERT a new row. -/
def upsert_position (t : PositionsTable) (p : Position) : PositionsTable :=
  if t.any (fun q => q.symbol == p.symbol) then
    t.map (fun q => if q.symbol == p.symbol then p else q)
  else
    t ++ [p]

/-- `has_active_position` (lines 296-305):
SELECT status FROM positions WHERE symbol = ? AND status = BOUGHT;
true iff such a row exists. -/
def has_active_position (t : PositionsTable) (symbol : String) : Bool :=
  t.any (fun p => p.symbol == symbol && p.status == PosStatus.BOUGHT)

/-- `has_pending_gtt` (lines 308-317):
SELECT status FROM gtt_orders WHERE symbol = ? AND status = ACTIVE;
true iff such a row exists. -/
def has_pending_gtt (g : List GttOrder) (symbol : String) : Bool :=
  g.any (fun o => o.symbol == symbol && o.status == GttStatus.ACTIVE)

/-- `cleanup_sold_positions` (lines 320-337): counts the rows with
status SOLD, deletes exactly those rows, and returns the count.  Rows
with any other status (TARGET_HIT included) are untouched. -/
def cleanup_sold_positions (t : PositionsTable) : PositionsTable × Nat :=
  let sold_count := (t.filter (fun p => p.status == PosStatus.SOLD)).length
  (t.filter (fun p => !(p.status == PosStatus.SOLD)), sold_count)

/-- The DB half of the idempotency gate of `check_and_execute_buy`
(lines 1192-1198): SELECT COUNT(*) FROM positions WHERE symbol = ?
AND status NOT IN (TARGET_HIT, SOLD); true iff the count is positive. -/
def has_open_db_position (t : PositionsTable) (symbol : String) : Bool :=
  t.any (fun p =>
    p.symbol == symbol &&
      !(p.status == PosStatus.TARGET_HIT) && !(p.status == PosStatus.SOLD))

/-- `update_gtt_status` (lines 374-388): UPDATE gtt_orders SET status=?
WHERE gtt_id=? (the optional last_price / updated_at columns are opaque
here). -/
def update_gtt_status (g : List GttOrder) (gtt_id : String) (status : GttStatus) :
    List GttOrder :=
  g.map (fun o => if o.gtt_id == gtt_id then { o with status := status } else o)

/-- Python `int(x)` applied to a rational: truncation toward zero. -/
def pyInt (q : Rat) : Int :=
  if 0 ≤ q then ⌊q⌋ else ⌈q⌉

/-- `should_buy` (lines 1147-1149).  The source reads the module-level
constant BUY_GAP_PERCENT (default 2.0); it is passed here as the
explicit argument `gap_pct`.  The `symbol` argument is unused by the
source body as well.  Pure function of its numeric inputs. -/
def should_buy (symbol : String) (ltp prev_close gap_pct : Rat) : Bool :=
  let threshold := prev_close * (1 - gap_pct / 100)
  ltp ≤ threshold

/-- The capital fields of MONITOR_STATE (lines 856-870) that
`calculate_dynamic_trade_quantity` reads.  The lazy
`update_capital_allocation` refresh (a broker call, lines 1102-1105) is
modelled as having already populated these fields. -/
structure CapitalState where
  total_capital : Rat
  deployment_percentage : Rat
  per_trade_percentage : Rat
deriving DecidableEq, Repr

/-- deployment_capital = total_capital * (deployment_percentage / 100)
(line 1108). -/
def deployment_capital (cap : CapitalState) : Rat :=
  cap.total_capital * (cap.deployment_percentage / 100)

/-- per_trade_allocation = deployment_capital * (per_trade_percentage /
100) (line 1109). -/
def per_trade_allocation (cap : CapitalState) : Rat :=
  deployment_capital cap * (cap.per_trade_percentage / 100)

/-- `calculate_allocated_capital` (lines 1073-1095):
SELECT SUM(qty * avg_buy_price) FROM positions WHERE status NOT IN
(TARGET_HIT, SOLD); a NULL sum (no rows) is coerced to 0. -/
def calculate_allocated_capital (t : PositionsTable) : Rat :=
  ((t.filter (fun p =>
      !(p.status == PosStatus.TARGET_HIT) && !(p.status == PosStatus.SOLD))).map
    (fun p => (p.qty : Rat) * p.avg_buy_price)).sum

/-- `calculate_dynamic_trade_quantity` (lines 1098-1144): returns 0 when
available deployment capital is below the per-trade allocation, when
ltp is not positive, or when the truncated quotient is not positive;
otherwise the truncated quotient, re-derived once if quantity * ltp
exceeded the allocation (lines 1136-1140 recompute the same
expression). -/
def calculate_dynamic_trade_quantity (cap : CapitalState) (t : PositionsTable)
    (ltp : Rat) : Int :=
  let per_trade := per_trade_allocation cap
  let allocated := calculate_allocated_capital t
  let available := deployment_capital cap - allocated
  if available < per_trade then 0
  else if ltp ≤ 0 then 0
  else
    let quantity := pyInt (per_trade / ltp)
    if quantity ≤ 0 then 0
    else
      let total_cost := (quantity : Rat) * ltp
      if per_trade < total_cost then pyInt (per_trade / ltp) else quantity

/-- The per-symbol quantity computation of `setup_gtt_for_watchlist`
(lines 1566-1573): with a truthy positive ltp the quantity is
max(1, int(per_trade_alloc / ltp)); otherwise (no quote, zero or
negative ltp) the fixed fallback quantity 10. -/
def setup_gtt_watchlist_qty (cap : CapitalState) (ltp : Option Rat) : Int :=
  match ltp with
  | some v => if 0 < v then max 1 (pyInt (per_trade_allocation cap / v)) else 10
  | none => 10

/-- Python round(x, 2): round half to even, at two decimal places. -/
def round_half_even (q : Rat) : Int :=
  let f := ⌊q⌋
  let r := q - (f : Rat)
  if r < 1 / 2 then f
  else if 1 / 2 < r then f + 1
  else if f % 2 = 0 then f else f + 1

/-- round(x, 2) as used for the limit-sell price (line 1316). -/
def round2 (q : Rat) : Rat :=
  (round_half_even (q * 100) : Rat) / 100

/-- The mutable engine state touched by `check_and_execute_buy` and the
monitor loop: the two durable tables, the append-only trades log, the
in-memory `bought_today` guard set of MONITOR_STATE, and the Telegram
notifications emitted so far. -/
structure EngineState where
  positions : PositionsTable
  gtt_orders : List GttOrder
  bought_today : List String
  trades : List TradeRow
  notifications : List String
deriving DecidableEq, Repr

/-- The module-level strategy constants (lines 98-100), env-default
2.0 / 3.0 / 5.0. -/
structure Config where
  buy_gap_percent : Rat
  sell_target_percent : Rat
  loss_alert_percent : Rat
deriving DecidableEq, Repr

/-- Outcome of `KiteWrapper.place_market_buy` plus the follow-up
`verify_order_execution` poll, as seen by `check_and_execute_buy`
(lines 493-538 and 1255-1341):
* `filled`: order placed (product MTF on the first attempt or CNC on
  the fallback) and the status poll reported COMPLETE with the given
  average price and filled quantity;
* `pending`: order placed but the poll did not report COMPLETE;
* `rejectedBoth`: both the MTF attempt and the CNC fallback raised, so
  `place_market_buy` raised RuntimeError (line 530). -/
inductive OrderAttempt where
  | filled (avg_price : Rat) (filled_qty : Int) (product : String)
  | pending (status_text : String) (product : String)
  | rejectedBoth
deriving DecidableEq, Repr

/-- The external responses consumed by one `check_and_execute_buy`
call: the session cache MONITOR_STATE last_prev_close for the symbol,
the `fetch_prev_close` result used when the cache misses, the
`fetch_ltp` result, the broker behaviour if a live order is placed, and
whether the two follow-up protective placements succeed. -/
structure BuyInputs where
  cached_prev_close : Option Rat
  fetched_prev_close : Option Rat
  ltp : Option Rat
  order : OrderAttempt
  gtt_sell_ok : Bool
  limit_sell_ok : Bool
deriving DecidableEq, Repr

/-- Count of broker network calls made during one run: `quote_calls`
counts quote-style reads (prev-close fetch, ltp fetch, the margin and
quote reads of the pre-trade validation, the order-status poll);
`order_calls` counts order placements (kite place_order attempts and
GTT placements). -/
structure BrokerTrace where
  quote_calls : Nat
  order_calls : Nat
deriving DecidableEq, Repr

/-- How one `check_and_execute_buy` run ended. -/
inductive BuyResult where
  | skipMemory
  | skipDbActive
  | skipNoPrevClose
  | skipNoLtp
  | noSignal
  | skipZeroQty
  | dryRunBought
  | liveBought
  | livePending
  | liveFailed
deriving DecidableEq, Repr

/-- The idempotency gate of `check_and_execute_buy` (lines 1186-1198):
first the in-memory `bought_today` membership test, then the DB check
for a row with status outside TARGET_HIT / SOLD; on the DB hit the
symbol is also added to `bought_today` (line 1197).  Both checks run
before any network call.  `none` means the gate passed.  Note: the gate
does NOT consult the `gtt_orders` table. -/
def buy_gate (st : EngineState) (symbol : String) :
    Option (EngineState × BuyResult) :=
  if st.bought_today.contains symbol then
    some (st, BuyResult.skipMemory)
  else if has_open_db_position st.positions symbol then
    some ({ st with bought_today := symbol :: st.bought_today },
      BuyResult.skipDbActive)
  else
    none

/-- Previous-close resolution (lines 1201-1207): session cache first,
else one `fetch_prev_close` quote call.  Returns the value (if any) and
the number of quote calls spent. -/
def resolve_prev_close (inp : BuyInputs) : Option Rat × Nat :=
  match inp.cached_prev_close with
  | some pc => (some pc, 0)
  | none => (inp.fetched_prev_close, 1)

/-- Number of kite place_order attempts inside `place_market_buy` for a
successfully placed order: 1 when MTF succeeded, 2 when the CNC
fallback was used (lines 496-527). -/
def order_attempts_for (product : String) : Nat :=
  if product == "MTF" then 1 else 2

/-- The live execution branch of `check_and_execute_buy` (lines
1249-1355), entered with the guard already set and a positive quantity.
Pre-trade validation inside `place_market_buy` performs two quote-style
reads (margins and quote, lines 470-487). -/
def execute_live_buy (cfg : Config) (st : EngineState) (symbol : String)
    (qty : Int) (ltp : Rat) (inp : BuyInputs) (qc : Nat) :
    EngineState × BuyResult × BrokerTrace :=
  match inp.order with
  | OrderAttempt.rejectedBoth =>
      ({ st with
          notifications := st.notifications ++
            ["Buy order FAILED for " ++ symbol],
          trades := st.trades ++
            [{ symbol := symbol, qty := qty, side := "BUY_FAILED",
               price := ltp, order_id := "", dry_run := false }] },
        BuyResult.liveFailed,
        { quote_calls := qc + 2, order_calls := 2 })
  | OrderAttempt.pending status_text product =>
      ({ st with
          trades := st.trades ++
            [{ symbol := symbol, qty := qty, side := "BUY_PENDING",
               price := ltp, order_id := "ORDER", dry_run := false }],
          notifications := st.notifications ++
            ["Buy order placed but pending: " ++ symbol ++ " " ++ status_text] },
        BuyResult.livePending,
        { quote_calls := qc + 3, order_calls := order_attempts_for product })
  | OrderAttempt.filled avg_price filled_qty product =>
      let target := avg_price * (1 + cfg.sell_target_percent / 100)
      let st1 : EngineState :=
        { st with
            trades := st.trades ++
              [{ symbol := symbol, qty := filled_qty, side := "BUY",
                 price := avg_price, order_id := "ORDER", dry_run := false }],
            positions := upsert_position st.positions
              { symbol := symbol, qty := filled_qty,
                avg_buy_price := avg_price, buy_timestamp := "",
                target_price := target, status := PosStatus.BOUGHT,
                product := product } }
      let st2 : EngineState :=
        if inp.gtt_sell_ok then
          { st1 with notifications := st1.notifications ++
              ["GTT Target Set: " ++ symbol] }
        else
          { st1 with notifications := st1.notifications ++
              ["GTT Sell Setup Failed for " ++ symbol] }
      let st3 : EngineState :=
        { st2 with notifications := st2.notifications ++
            ["BUY EXECUTED " ++ symbol] }
      let st4 : EngineState :=
        if inp.limit_sell_ok then
          { st3 with
              trades := st3.trades ++
                [{ symbol := symbol, qty := filled_qty,
                   side := "SELL_LIMIT_PLACED", price := round2 target,
                   order_id := "SELLORDER", dry_run := false }],
              notifications := st3.notifications ++
                ["Target sell order placed: " ++ symbol] }
        else
          { st3 with notifications := st3.notifications ++
              ["Buy executed but failed to place sell order for " ++ symbol] }
      (st4, BuyResult.liveBought,
        { quote_calls := qc + 3,
          order_calls := order_attempts_for product + 2 })

/-- `check_and_execute_buy` (lines 1183-1355) for one symbol.  The `qty`
argument of the source is shadowed by the dynamic quantity (line 1234)
and is therefore not a parameter here.  Control flow: idempotency gate,
previous-close resolution, ltp fetch, gap test, guard insertion, dynamic
sizing, then the dry-run or live branch. -/
def check_and_execute_buy (cfg : Config) (cap : CapitalState)
    (st : EngineState) (symbol : String) (dry_run : Bool) (inp : BuyInputs) :
    EngineState × BuyResult × BrokerTrace :=
  match buy_gate st symbol with
  | some (st', r) => (st', r, { quote_calls := 0, order_calls := 0 })
  | none =>
    match resolve_prev_close inp with
    | (none, qc) =>
        (st, BuyResult.skipNoPrevClose, { quote_calls := qc, order_calls := 0 })
    | (some pc, qc) =>
      match inp.ltp with
      | none =>
          (st, BuyResult.skipNoLtp,
            { quote_calls := qc + 1, order_calls := 0 })
      | some ltp =>
        if should_buy symbol ltp pc cfg.buy_gap_percent then
          let st1 : EngineState :=
            { st with bought_today := symbol :: st.bought_today }
          let qty := calculate_dynamic_trade_quantity cap st1.positions ltp
          if qty ≤ 0 then
            (st1, BuyResult.skipZeroQty,
              { quote_calls := qc + 1, order_calls := 0 })
          else if dry_run then
            let target := ltp * (1 + cfg.sell_target_percent / 100)
            ({ st1 with
                trades := st1.trades ++
                  [{ symbol := symbol, qty := qty, side := "BUY",
                     price := ltp, order_id := "DRYRUN", dry_run := true }],
                positions := upsert_position st1.positions
                  { symbol := symbol, qty := qty, avg_buy_price := ltp,
                    buy_timestamp := "", target_price := target,
                    status := PosStatus.BOUGHT, product := "CNC" },
                notifications := st1.notifications ++
                  ["DRY_RUN Bought " ++ symbol] },
              BuyResult.dryRunBought,
              { quote_calls := qc + 1, order_calls := 0 })
          else
            execute_live_buy cfg st1 symbol qty ltp inp (qc + 1)
        else
          (st, BuyResult.noSignal,
            { quote_calls := qc + 1, order_calls := 0 })

/-- The manual BUY rejection tests of the dashboard action (lines
2550-2555): active BOUGHT position, pending GTT, or `bought_today`
membership each block the manual order.  The empty-symbol input check
(line 2548) is outside this model. -/
def manual_buy_blocked (st : EngineState) (symbol : String) : Bool :=
  has_active_position st.positions symbol ||
    has_pending_gtt st.gtt_orders symbol ||
      st.bought_today.contains symbol

/-- The periodic housekeeping block of `monitor_loop` (lines 1375-1392):
remove from `bought_today` every symbol that has a positions row with
status TARGET_HIT or SOLD, then run `cleanup_sold_positions` and notify
if it removed anything.  Returns the new state and the cleanup count. -/
def monitor_housekeeping (st : EngineState) : EngineState × Nat :=
  let closed := fun s => st.positions.any (fun p =>
    p.symbol == s &&
      (p.status == PosStatus.TARGET_HIT || p.status == PosStatus.SOLD))
  let bought' := st.bought_today.filter (fun s => !(closed s))
  let cleaned := cleanup_sold_positions st.positions
  ({ st with
      bought_today := bought',
      positions := cleaned.1,
      notifications :=
        if 0 < cleaned.2 then
          st.notifications ++ ["Cleaned up sold positions"]
        else st.notifications },
    cleaned.2)

/-- What the per-symbol body of `monitor_loop` does on a tick (lines
1402-1449): with no ltp the symbol is skipped; with a positions row
whose status is TARGET_HIT or SOLD the loop `continue`s (no buy
attempt); with any other row the open position is tracked; only with no
row at all is `check_and_execute_buy` called. -/
inductive TickAction where
  | noLtp
  | closedSkip
  | trackPosition
  | attemptBuy
deriving DecidableEq, Repr

/-- The branch decision of the monitor-loop body for one symbol. -/
def monitor_tick_action (t : PositionsTable) (symbol : String)
    (ltp : Option Rat) : TickAction :=
  match ltp with
  | none => TickAction.noLtp
  | some _ =>
    match t.find? (fun p => p.symbol == symbol) with
    | some p =>
        if p.status == PosStatus.TARGET_HIT || p.status == PosStatus.SOLD then
          TickAction.closedSkip
        else TickAction.trackPosition
    | none => TickAction.attemptBuy

/-- One leg of a remote GTT as returned by get_gtts: the fields read by
`monitor_gtt_executions` (lines 1607-1616). -/
structure RemoteGttLeg where
  transaction_type : String
  quantity : Int
deriving DecidableEq, Repr

/-- A remote GTT entry as returned by get_gtts: the fields read by
`monitor_gtt_executions` (status already uppercased, line 1603). -/
structure RemoteGtt where
  id : String
  status : String
  tradingsymbol : String
  orders : List RemoteGttLeg
deriving DecidableEq, Repr

/-- One protective sell-GTT placement attempted by
`monitor_gtt_executions` (lines 1626-1634). -/
structure SellPlacement where
  symbol : String
  trigger_price : Rat
  quantity : Int
deriving DecidableEq, Repr

/-- `monitor_gtt_executions` (lines 1590-1643): for every remote GTT
whose status is TRIGGERED and whose first order leg is a BUY, set the
local row to TRIGGERED and, when an ltp is available, place a
protective sell GTT at ltp * (1 + sell_target_percent / 100).  No local
status is read before placing the sell order.  Returns the updated
local `gtt_orders` table and the list of sell placements attempted. -/
def monitor_gtt_executions (cfg : Config) (remote : List RemoteGtt)
    (ltp : String → Option Rat) (db : List GttOrder) :
    List GttOrder × List SellPlacement :=
  remote.foldl
    (fun acc g =>
      if g.status == "TRIGGERED" &&
          ((g.orders.head?.map RemoteGttLeg.transaction_type).getD "") == "BUY"
      then
        let db' := update_gtt_status acc.1 g.id GttStatus.TRIGGERED
        let executed_qty := (g.orders.head?.map RemoteGttLeg.quantity).getD 0
        match ltp g.tradingsymbol with
        | some p =>
            (db', acc.2 ++
              [{ symbol := g.tradingsymbol,
                 trigger_price := p * (1 + cfg.sell_target_percent / 100),
                 quantity := executed_qty }])
        | none => (db', acc.2)
      else acc)
    (db, [])

/-- The open statuses of the single-open-position invariant:
BOUGHT or ALERTED. -/
def open_status (s : PosStatus) : Bool :=
  s == PosStatus.BOUGHT || s == PosStatus.ALERTED

/-- The rows of the table that witness an open position for a symbol. -/
def open_rows (t : PositionsTable) (s : String) : List Position :=
  t.filter (fun p => p.symbol == s && open_status p.status)

/-! ## Helper lemmas -/

theorem pyInt_eq_floor_of_nonneg {q : Rat} (h : 0 ≤ q) : pyInt q = ⌊q⌋ := by
  simp [pyInt, h]

theorem max_one_pyInt (q : Rat) : max 1 (pyInt q) = max 1 ⌊q⌋ := by
  by_cases h : 0 ≤ q
  · rw [pyInt_eq_floor_of_nonneg h]
  · push_neg at h
    have hc : ⌈q⌉ ≤ 1 := le_trans (Int.ceil_le.mpr (le_of_lt h)) (by norm_num)
    have hf : ⌊q⌋ ≤ 1 := le_trans (Int.floor_le_ceil q) hc
    rw [pyInt, if_neg (not_le.mpr h), max_eq_left hc, max_eq_left hf]

theorem length_filter_le_of_imp (l : List Position) (p q : Position → Bool)
    (h : ∀ a, q a = true → p a = true) :
    (l.filter q).length ≤ (l.filter p).length := by
  induction l with
  | nil => simp
  | cons a t ih =>
    by_cases hq : q a = true
    · simp [List.filter_cons, hq, h a hq, Nat.succ_le_succ ih]
    · by_cases hp : p a = true <;>
        simp [List.filter_cons, hq, hp] <;> omega

theorem length_filter_symbol_le_one (t : PositionsTable) (s : String)
    (h : positionsWF t) :
    (t.filter (fun p => p.symbol == s)).length ≤ 1 := by
  induction t with
  | nil => simp
  | cons a l ih =>
    simp only [positionsWF, List.map_cons, List.nodup_cons] at h
    obtain ⟨ha, hl⟩ := h
    by_cases hs : (a.symbol == s) = true
    · have hnil : l.filter (fun p => p.symbol == s) = [] := by
        rw [List.filter_eq_nil_iff]
        intro p hp hps
        exact ha (by
          have : p.symbol = s := by simpa using hps
          have has : a.symbol = s := by simpa using hs
          rw [has, ← this]
          exact List.mem_map_of_mem Position.symbol hp)
      simp [List.filter_cons, hs, hnil]
    · simpa [List.filter_cons, hs] using ih hl

theorem symbol_inj_of_WF {t : PositionsTable} (h : positionsWF t)
    {p q : Position} (hp : p ∈ t) (hq : q ∈ t) (hpq : p.symbol = q.symbol) :
    p = q := by
  induction t with
  | nil => simp at hp
  | cons a l ih =>
    simp only [positionsWF, List.map_cons, List.nodup_cons] at h
    obtain ⟨ha, hl⟩ := h
    rcases List.mem_cons.mp hp with hp | hp <;>
      rcases List.mem_cons.mp hq with hq | hq
    · rw [hp, hq]
    · exact absurd (by
        rw [← hp, hpq]
        exact List.mem_map_of_mem Position.symbol hq) ha
    · exact absurd (by
        rw [← hq, ← hpq]
        exact List.mem_map_of_mem Position.symbol hp) ha
    · exact ih hl hp hq

theorem find?_symbol_of_WF_mem {t : PositionsTable} (h : positionsWF t)
    {p : Position} {s : String} (hp : p ∈ t) (hs : (p.symbol == s) = true) :
    t.find? (fun q => q.symbol == s) = some p := by
  induction t with
  | nil => simp at hp
  | cons a l ih =>
    simp only [positionsWF, List.map_cons, List.nodup_cons] at h
    obtain ⟨ha, hl⟩ := h
    by_cases haq : (a.symbol == s) = true
    · have hap : a = p := by
        rcases List.mem_cons.mp hp with hp | hp
        · exact hp.symm
        · have h1 : a.symbol = s := by simpa using haq
          have h2 : p.symbol = s := by simpa using hs
          exact absurd (by rw [h1, ← h2]; exact List.mem_map_of_mem Position.symbol hp) ha
      simp [List.find?_cons, haq, hap, hs]
    · have hpl : p ∈ l := by
        rcases List.mem_cons.mp hp with hp | hp
        · exact absurd (hp ▸ hs) haq
        · exact hp
      simp [List.find?_cons, haq, ih hl hpl]

/-! ## Claim theorems -/

/-- Claim C5: `should_buy` returns true iff ltp ≤ prev_close * (1 -
gap_pct / 100); the boundary is inclusive (98 against previous close
100 at gap 2.0 triggers; 98.01 does not); and the function is a pure
function of its arguments (it is a plain Lean function, so this is by
construction). -/
theorem c5_should_buy_threshold :
    (∀ (symbol : String) (ltp prev_close gap_pct : Rat),
        should_buy symbol ltp prev_close gap_pct = true ↔
          ltp ≤ prev_close * (1 - gap_pct / 100)) ∧
      should_buy "X" 98 100 2 = true ∧
      should_buy "X" (9801 / 100) 100 2 = false := by
  refine ⟨fun symbol ltp prev_close gap_pct => ?_, ?_, ?_⟩
  · simp [should_buy]
  · norm_num [should_buy]
  · norm_num [should_buy]

/-- Claim C4 (amended): `has_active_position` returns true iff there is
a row for the symbol with status BOUGHT; rows with status ALERTED do
not count (the source query filters on status = BOUGHT only). -/
theorem c4_has_active_position_iff (t : PositionsTable) (s : String) :
    has_active_position t s = true ↔
      ∃ p ∈ t, p.symbol = s ∧ p.status = PosStatus.BOUGHT := by
  simp [has_active_position, List.any_eq_true]

/-- Claim C4 counterexample: a table holding one ALERTED row for the
symbol, for which the claimed specification demands true, but
`has_active_position` returns false. -/
theorem c4_alerted_not_active :
    has_active_position
        [{ symbol := "GOLDBEES", qty := 5, avg_buy_price := 100,
           buy_timestamp := "", target_price := 103,
           status := PosStatus.ALERTED, product := "CNC" }] "GOLDBEES" = false ∧
      ({ symbol := "GOLDBEES", qty := 5, avg_buy_price := 100,
         buy_timestamp := "", target_price := 103,
         status := PosStatus.ALERTED, product := "CNC" } : Position).status =
        PosStatus.ALERTED := by
  constructor
  · simp [has_active_position]
  · rfl

/-- Claim C10: the GTT-setup quantity for a symbol with a positive
price is max(1, trunc(per-trade budget / price)) (at least one share
even when the budget is below the price), the fallback with no usable
price is the constant 10, and the quantity is never 0 on this path.
Truncation agrees with the floor of the claim under max with 1. -/
theorem c10_gtt_watchlist_qty (cap : CapitalState) (v : Rat) (l : Option Rat) :
    (setup_gtt_watchlist_qty cap (some v) =
        if 0 < v then max 1 ⌊per_trade_allocation cap / v⌋ else 10) ∧
      setup_gtt_watchlist_qty cap none = 10 ∧
      1 ≤ setup_gtt_watchlist_qty cap l := by
  refine ⟨?_, rfl, ?_⟩
  · by_cases hv : 0 < v
    · simp [setup_gtt_watchlist_qty, hv, max_one_pyInt]
    · simp [setup_gtt_watchlist_qty, hv]
  · match l with
    | none => simp [setup_gtt_watchlist_qty]
    | some w =>
      by_cases hw : 0 < w
      · simp [setup_gtt_watchlist_qty, hw, le_max_left]
      · simp [setup_gtt_watchlist_qty, hw]

/-- Claim C6: the per-trade budget is totalCapital * deploymentPct/100
* perTradePct/100 (3500 at 100000 / 70 / 5); with sufficient available
deployment capital and a positive price the computed quantity is
floor(budget / price); and the quantity is 0 — a normal skip — whenever
the price is not positive, whenever available deployment capital
(deployment capital minus allocated capital recomputed from the open
rows) is below the budget, and whenever the floor is 0. -/
theorem c6_dynamic_trade_quantity (cap : CapitalState) (t : PositionsTable)
    (ltp : Rat) :
    per_trade_allocation ⟨100000, 70, 5⟩ = 3500 ∧
    (per_trade_allocation cap ≤
        deployment_capital cap - calculate_allocated_capital t →
      0 ≤ per_trade_allocation cap → 0 < ltp →
      calculate_dynamic_trade_quantity cap t ltp =
        ⌊per_trade_allocation cap / ltp⌋) ∧
    (ltp ≤ 0 → calculate_dynamic_trade_quantity cap t ltp = 0) ∧
    (deployment_capital cap - calculate_allocated_capital t <
        per_trade_allocation cap →
      calculate_dynamic_trade_quantity cap t ltp = 0) ∧
    (0 < ltp → ⌊per_trade_allocation cap / ltp⌋ = 0 →
      calculate_dynamic_trade_quantity cap t ltp = 0) := by
  refine ⟨by norm_num [per_trade_allocation, deployment_capital], ?_, ?_, ?_, ?_⟩
  · intro havail hb hl
    have hdiv : (0 : Rat) ≤ per_trade_allocation cap / ltp :=
      div_nonneg hb (le_of_lt hl)
    rw [calculate_dynamic_trade_quantity, if_neg (not_lt.mpr havail),
      if_neg (not_le.mpr hl), pyInt_eq_floor_of_nonneg hdiv]
    by_cases hq : ⌊per_trade_allocation cap / ltp⌋ ≤ 0
    · have h0 : (0 : Int) ≤ ⌊per_trade_allocation cap / ltp⌋ :=
        Int.floor_nonneg.mpr hdiv
      simp only [if_pos hq]
      omega
    · have hle : (⌊per_trade_allocation cap / ltp⌋ : Rat) * ltp ≤
          per_trade_allocation cap := by
        have h1 : (⌊per_trade_allocation cap / ltp⌋ : Rat) ≤
            per_trade_allocation cap / ltp := Int.floor_le _
        calc (⌊per_trade_allocation cap / ltp⌋ : Rat) * ltp
            ≤ per_trade_allocation cap / ltp * ltp :=
              mul_le_mul_of_nonneg_right h1 (le_of_lt hl)
          _ = per_trade_allocation cap := div_mul_cancel₀ _ (ne_of_gt hl)
      simp only [if_neg hq, if_neg (not_lt.mpr hle)]
  · intro hl
    rw [calculate_dynamic_trade_quantity]
    by_cases hav : deployment_capital cap - calculate_allocated_capital t <
        per_trade_allocation cap
    · rw [if_pos hav]
    · rw [if_neg hav, if_pos hl]
  · intro hav
    rw [calculate_dynamic_trade_quantity, if_pos hav]
  · intro hl hfl
    rw [calculate_dynamic_trade_quantity]
    by_cases hav : deployment_capital cap - calculate_allocated_capital t <
        per_trade_allocation cap
    · rw [if_pos hav]
    · have hdiv : (0 : Rat) ≤ per_trade_allocation cap / ltp := by
        by_contra hneg
        push_neg at hneg
        have : ⌊per_trade_allocation cap / ltp⌋ < 0 := by
          rw [Int.floor_lt]
          exact lt_of_lt_of_le hneg (by norm_num)
        omega
      rw [if_neg hav, if_neg (not_le.mpr hl), pyInt_eq_floor_of_nonneg hdiv,
        if_pos (le_of_eq hfl)]

/-- Claim C6 witness: the theorem applied at totalCapital 100000,
deploymentPct 70, perTradePct 5, empty positions table, price 98:
budget 3500 and quantity floor(3500 / 98) = 35; and at price 0 the
quantity is 0. -/
theorem c6_dynamic_trade_quantity_witness :
    calculate_dynamic_trade_quantity ⟨100000, 70, 5⟩ [] 98 = 35 ∧
      calculate_dynamic_trade_quantity ⟨100000, 70, 5⟩ [] 0 = 0 := by
  have h := c6_dynamic_trade_quantity ⟨100000, 70, 5⟩ [] 98
  have h0 := c6_dynamic_trade_quantity ⟨100000, 70, 5⟩ [] 0
  constructor
  · have h2 := h.2.1
      (by norm_num [per_trade_allocation, deployment_capital,
        calculate_allocated_capital])
      (by norm_num [per_trade_allocation, deployment_capital])
      (by norm_num)
    rw [h2]
    norm_num [per_trade_allocation, deployment_capital]
  · exact h0.2.2.1 le_rfl

/-- Claim C1: the `positions` table keys rows by symbol (PRIMARY KEY),
so a well-formed table has at most one row per symbol with status in
BOUGHT / ALERTED at any observation point, and every store operation —
`upsert_position` (which also implements every status transition) and
the housekeeping purge `cleanup_sold_positions` — preserves the keying,
hence the invariant. -/
theorem c1_single_open_position (t : PositionsTable) (s : String)
    (p : Position) (h : positionsWF t) :
    (open_rows t s).length ≤ 1 ∧
      positionsWF (upsert_position t p) ∧
      positionsWF (cleanup_sold_positions t).1 := by
  refine ⟨?_, ?_, ?_⟩
  · have hmono := length_filter_le_of_imp t (fun q => q.symbol == s)
      (fun q => q.symbol == s && open_status q.status)
      (fun a ha => by
        simp only [Bool.and_eq_true] at ha
        exact ha.1)
    exact le_trans hmono (length_filter_symbol_le_one t s h)
  · rw [upsert_position]
    by_cases hmem : t.any (fun q => q.symbol == p.symbol) = true
    · rw [if_pos hmem]
      have hsym : (t.map (fun q => if q.symbol == p.symbol then p else q)).map
          Position.symbol = t.map Position.symbol := by
        rw [List.map_map]
        apply List.map_congr_left
        intro a _
        by_cases ha : (a.symbol == p.symbol) = true
        · have : a.symbol = p.symbol := by simpa using ha
          simp [Function.comp, ha, this]
        · simp [Function.comp, ha]
      rw [positionsWF, hsym]
      exact h
    · rw [if_neg hmem, positionsWF, List.map_append]
      rw [List.nodup_append]
      refine ⟨h, List.nodup_singleton _, ?_⟩
      intro x hx
      simp only [List.map_cons, List.map_nil, List.mem_singleton]
      intro hxp
      simp only [List.any_eq_true, not_exists, not_and] at hmem
      obtain ⟨a, ha, hax⟩ := List.mem_map.mp hx
      have := hmem a ha
      rw [← hax] at hxp
      simp [hxp] at this
  · rw [positionsWF]
    exact h.sublist (List.Sublist.map Position.symbol (List.filter_sublist t))

/-- Claim C1 witness: the theorem applied to a one-row table (a BOUGHT
position) — at most one open row for the symbol, and well-formedness is
kept by an upsert that flips the row to ALERTED and by the purge. -/
theorem c1_single_open_position_witness :
    (open_rows
        [{ symbol := "A", qty := 5, avg_buy_price := 100, buy_timestamp := "",
           target_price := 103, status := PosStatus.BOUGHT, product := "CNC" }]
        "A").length ≤ 1 ∧
      positionsWF (upsert_position
        [{ symbol := "A", qty := 5, avg_buy_price := 100, buy_timestamp := "",
           target_price := 103, status := PosStatus.BOUGHT, product := "CNC" }]
        { symbol := "A", qty := 5, avg_buy_price := 100, buy_timestamp := "",
          target_price := 103, status := PosStatus.ALERTED, product := "CNC" }) ∧
      positionsWF (cleanup_sold_positions
        [{ symbol := "A", qty := 5, avg_buy_price := 100, buy_timestamp := "",
           target_price := 103, status := PosStatus.BOUGHT, product := "CNC" }]).1 :=
  c1_single_open_position _ "A" _ (by simp [positionsWF])

/-- Claim C2 (amended): the idempotency gate of `check_and_execute_buy`
rejects — before any broker or network call and with the positions,
gtt_orders, trades and notification state untouched (the DB-hit branch
additionally inserts the symbol into the in-memory guard set) —
whenever the symbol is in the in-memory guard set OR has a positions
row with status outside TARGET_HIT / SOLD.  An active conditional
order in `gtt_orders` is NOT part of this gate (that check exists only
in `setup_gtt_strategy` and the manual-buy action). -/
theorem c2_idempotency_gate (cfg : Config) (cap : CapitalState)
    (st : EngineState) (symbol : String) (dry_run : Bool) (inp : BuyInputs)
    (h : st.bought_today.contains symbol = true ∨
      has_open_db_position st.positions symbol = true) :
    (check_and_execute_buy cfg cap st symbol dry_run inp).2.2 =
        { quote_calls := 0, order_calls := 0 } ∧
      (check_and_execute_buy cfg cap st symbol dry_run inp).1.positions =
        st.positions ∧
      (check_and_execute_buy cfg cap st symbol dry_run inp).1.gtt_orders =
        st.gtt_orders ∧
      (check_and_execute_buy cfg cap st symbol dry_run inp).1.trades =
        st.trades ∧
      (check_and_execute_buy cfg cap st symbol dry_run inp).1.notifications =
        st.notifications := by
  by_cases hc : st.bought_today.contains symbol = true
  · have hm : symbol ∈ st.bought_today := by simpa using hc
    simp [check_and_execute_buy, buy_gate, hm]
  · have hm : symbol ∉ st.bought_today := by simpa using hc
    have hdb : has_open_db_position st.positions symbol = true := by
      rcases h with h | h
      · exact absurd h hc
      · exact h
    simp [check_and_execute_buy, buy_gate, hm, hdb]

/-- Claim C2 witness: the gate theorem applied to a state whose guard
set already holds the symbol. -/
theorem c2_idempotency_gate_witness :
    (check_and_execute_buy ⟨2, 3, 5⟩ ⟨100000, 70, 5⟩
          ⟨[], [], ["GOLDBEES"], [], []⟩ "GOLDBEES" false
          ⟨some 100, none, some 98, OrderAttempt.rejectedBoth, true, true⟩).2.2 =
        { quote_calls := 0, order_calls := 0 } ∧
      (check_and_execute_buy ⟨2, 3, 5⟩ ⟨100000, 70, 5⟩
          ⟨[], [], ["GOLDBEES"], [], []⟩ "GOLDBEES" false
          ⟨some 100, none, some 98, OrderAttempt.rejectedBoth, true, true⟩).1.positions =
        (⟨[], [], ["GOLDBEES"], [], []⟩ : EngineState).positions ∧
      (check_and_execute_buy ⟨2, 3, 5⟩ ⟨100000, 70, 5⟩
          ⟨[], [], ["GOLDBEES"], [], []⟩ "GOLDBEES" false
          ⟨some 100, none, some 98, OrderAttempt.rejectedBoth, true, true⟩).1.gtt_orders =
        (⟨[], [], ["GOLDBEES"], [], []⟩ : EngineState).gtt_orders ∧
      (check_and_execute_buy ⟨2, 3, 5⟩ ⟨100000, 70, 5⟩
          ⟨[], [], ["GOLDBEES"], [], []⟩ "GOLDBEES" false
          ⟨some 100, none, some 98, OrderAttempt.rejectedBoth, true, true⟩).1.trades =
        (⟨[], [], ["GOLDBEES"], [], []⟩ : EngineState).trades ∧
      (check_and_execute_buy ⟨2, 3, 5⟩ ⟨100000, 70, 5⟩
          ⟨[], [], ["GOLDBEES"], [], []⟩ "GOLDBEES" false
          ⟨some 100, none, some 98, OrderAttempt.rejectedBoth, true, true⟩).1.notifications =
        (⟨[], [], ["GOLDBEES"], [], []⟩ : EngineState).notifications :=
  c2_idempotency_gate ⟨2, 3, 5⟩ ⟨100000, 70, 5⟩
    ⟨[], [], ["GOLDBEES"], [], []⟩ "GOLDBEES" false
    ⟨some 100, none, some 98, OrderAttempt.rejectedBoth, true, true⟩
    (Or.inl (by simp [List.contains]))

/-- Claim C2 counterexample: a symbol with an ACTIVE row in
`gtt_orders` (so `has_pending_gtt` is true), no positions row and an
empty guard set, is NOT rejected: the gap signal fires, the broker is
called (two order attempts), and state changes (a BUY_FAILED trade is
recorded) — refuting the claim that an active conditional order short-
circuits `check_and_execute_buy` before any broker call. -/
theorem c2_gtt_not_checked :
    has_pending_gtt
        [{ symbol := "GOLDBEES", gtt_id := "G1", trigger_type := "single",
           trigger_price := 98, order_type := "MARKET", quantity := 35,
           price := none, condition := "<=", status := GttStatus.ACTIVE }]
        "GOLDBEES" = true ∧
      (check_and_execute_buy ⟨2, 3, 5⟩ ⟨100000, 70, 5⟩
          ⟨[], [{ symbol := "GOLDBEES", gtt_id := "G1", trigger_type := "single",
                  trigger_price := 98, order_type := "MARKET", quantity := 35,
                  price := none, condition := "<=", status := GttStatus.ACTIVE }],
            [], [], []⟩ "GOLDBEES" false
          ⟨some 100, none, some 98, OrderAttempt.rejectedBoth, true, true⟩).2.1 =
        BuyResult.liveFailed ∧
      (check_and_execute_buy ⟨2, 3, 5⟩ ⟨100000, 70, 5⟩
          ⟨[], [{ symbol := "GOLDBEES", gtt_id := "G1", trigger_type := "single",
                  trigger_price := 98, order_type := "MARKET", quantity := 35,
                  price := none, condition := "<=", status := GttStatus.ACTIVE }],
            [], [], []⟩ "GOLDBEES" false
          ⟨some 100, none, some 98, OrderAttempt.rejectedBoth, true, true⟩).2.2.order_calls =
        2 ∧
      (check_and_execute_buy ⟨2, 3, 5⟩ ⟨100000, 70, 5⟩
          ⟨[], [{ symbol := "GOLDBEES", gtt_id := "G1", trigger_type := "single",
                  trigger_price := 98, order_type := "MARKET", quantity := 35,
                  price := none, condition := "<=", status := GttStatus.ACTIVE }],
            [], [], []⟩ "GOLDBEES" false
          ⟨some 100, none, some 98, OrderAttempt.rejectedBoth, true, true⟩).1.trades.length =
        1 := by
  refine ⟨by simp [has_pending_gtt], ?_, ?_, ?_⟩ <;>
    norm_num [check_and_execute_buy, buy_gate, resolve_prev_close,
      has_open_db_position, should_buy, calculate_dynamic_trade_quantity,
      per_trade_allocation, deployment_capital, calculate_allocated_capital,
      pyInt, execute_live_buy]

/-- Claim C8: when a live buy reaches order placement and both the MTF
attempt and the CNC fallback are rejected, `check_and_execute_buy`
appends exactly one trade record, with side BUY_FAILED, sends exactly
one notification, and neither creates nor mutates any positions row
(the gtt_orders table is untouched as well). -/
theorem c8_both_rejected_writes_failed_record (cfg : Config)
    (cap : CapitalState) (st : EngineState) (symbol : String)
    (inp : BuyInputs) (pc ltp : Rat) (qc : Nat)
    (hgate : buy_gate st symbol = none)
    (hpc : resolve_prev_close inp = (some pc, qc))
    (hltp : inp.ltp = some ltp)
    (hsig : should_buy symbol ltp pc cfg.buy_gap_percent = true)
    (hqty : 0 < calculate_dynamic_trade_quantity cap st.positions ltp)
    (hord : inp.order = OrderAttempt.rejectedBoth) :
    (check_and_execute_buy cfg cap st symbol false inp).1.positions =
        st.positions ∧
      (check_and_execute_buy cfg cap st symbol false inp).1.gtt_orders =
        st.gtt_orders ∧
      (check_and_execute_buy cfg cap st symbol false inp).1.trades =
        st.trades ++
          [{ symbol := symbol,
             qty := calculate_dynamic_trade_quantity cap st.positions ltp,
             side := "BUY_FAILED", price := ltp, order_id := "",
             dry_run := false }] ∧
      (check_and_execute_buy cfg cap st symbol false inp).1.notifications =
        st.notifications ++ ["Buy order FAILED for " ++ symbol] ∧
      (check_and_execute_buy cfg cap st symbol false inp).2.1 =
        BuyResult.liveFailed := by
  have hq' : ¬calculate_dynamic_trade_quantity cap st.positions ltp ≤ 0 :=
    not_le.mpr hqty
  simp [check_and_execute_buy, hgate, hpc, hltp, hsig, hq',
    execute_live_buy, hord]

/-- Claim C8 witness: the theorem applied to an empty engine state, a
2-percent gap signal at previous close 100 and price 98, and a broker
rejecting both modes. -/
theorem c8_both_rejected_witness :
    (check_and_execute_buy ⟨2, 3, 5⟩ ⟨100000, 70, 5⟩ ⟨[], [], [], [], []⟩
          "GOLDBEES" false
          ⟨some 100, none, some 98, OrderAttempt.rejectedBoth, true, true⟩).1.positions =
        ([] : PositionsTable) ∧
      (check_and_execute_buy ⟨2, 3, 5⟩ ⟨100000, 70, 5⟩ ⟨[], [], [], [], []⟩
          "GOLDBEES" false
          ⟨some 100, none, some 98, OrderAttempt.rejectedBoth, true, true⟩).1.gtt_orders =
        ([] : List GttOrder) ∧
      (check_and_execute_buy ⟨2, 3, 5⟩ ⟨100000, 70, 5⟩ ⟨[], [], [], [], []⟩
          "GOLDBEES" false
          ⟨some 100, none, some 98, OrderAttempt.rejectedBoth, true, true⟩).1.trades =
        [] ++
          [{ symbol := "GOLDBEES",
             qty := calculate_dynamic_trade_quantity ⟨100000, 70, 5⟩ [] 98,
             side := "BUY_FAILED", price := 98, order_id := "",
             dry_run := false }] ∧
      (check_and_execute_buy ⟨2, 3, 5⟩ ⟨100000, 70, 5⟩ ⟨[], [], [], [], []⟩
          "GOLDBEES" false
          ⟨some 100, none, some 98, OrderAttempt.rejectedBoth, true, true⟩).1.notifications =
        [] ++ ["Buy order FAILED for " ++ "GOLDBEES"] ∧
      (check_and_execute_buy ⟨2, 3, 5⟩ ⟨100000, 70, 5⟩ ⟨[], [], [], [], []⟩
          "GOLDBEES" false
          ⟨some 100, none, some 98, OrderAttempt.rejectedBoth, true, true⟩).2.1 =
        BuyResult.liveFailed :=
  c8_both_rejected_writes_failed_record ⟨2, 3, 5⟩ ⟨100000, 70, 5⟩
    ⟨[], [], [], [], []⟩ "GOLDBEES"
    ⟨some 100, none, some 98, OrderAttempt.rejectedBoth, true, true⟩ 100 98 0
    (by simp [buy_gate, has_open_db_position])
    rfl rfl
    (by norm_num [should_buy])
    (by norm_num [calculate_dynamic_trade_quantity, per_trade_allocation,
      deployment_capital, calculate_allocated_capital, pyInt])
    rfl

theorem check_skips_when_guarded (cfg : Config) (cap : CapitalState)
    (st : EngineState) (symbol : String) (dry_run : Bool) (inp : BuyInputs)
    (hm : symbol ∈ st.bought_today) :
    check_and_execute_buy cfg cap st symbol dry_run inp =
      (st, BuyResult.skipMemory, { quote_calls := 0, order_calls := 0 }) := by
  simp [check_and_execute_buy, buy_gate, hm]

/-- Claim C9 (amended): after a failed live order placement the symbol
stays in the in-memory `bought_today` guard set, so every later
automatic `check_and_execute_buy` call for the symbol — gap signal or
not — short-circuits at the gate with no broker call and no state
change, and the manual-buy action is blocked as well; the failure is
terminal for the session (until the guard is reset manually), not just
for that cycle. -/
theorem c9_failed_buy_blocks_session (cfg : Config) (cap : CapitalState)
    (st : EngineState) (symbol : String) (inp : BuyInputs) (pc ltp : Rat)
    (qc : Nat)
    (hgate : buy_gate st symbol = none)
    (hpc : resolve_prev_close inp = (some pc, qc))
    (hltp : inp.ltp = some ltp)
    (hsig : should_buy symbol ltp pc cfg.buy_gap_percent = true)
    (hqty : 0 < calculate_dynamic_trade_quantity cap st.positions ltp)
    (hord : inp.order = OrderAttempt.rejectedBoth) :
    (check_and_execute_buy cfg cap st symbol false inp).1.bought_today.contains
        symbol = true ∧
      (∀ (cfg2 : Config) (cap2 : CapitalState) (dry2 : Bool) (inp2 : BuyInputs),
        check_and_execute_buy cfg2 cap2
            (check_and_execute_buy cfg cap st symbol false inp).1 symbol dry2
            inp2 =
          ((check_and_execute_buy cfg cap st symbol false inp).1,
            BuyResult.skipMemory,
            { quote_calls := 0, order_calls := 0 })) ∧
      manual_buy_blocked (check_and_execute_buy cfg cap st symbol false inp).1
        symbol = true := by
  have hq' : ¬calculate_dynamic_trade_quantity cap st.positions ltp ≤ 0 :=
    not_le.mpr hqty
  have hst1 : (check_and_execute_buy cfg cap st symbol false inp).1.bought_today =
      symbol :: st.bought_today := by
    simp [check_and_execute_buy, hgate, hpc, hltp, hsig, hq',
      execute_live_buy, hord]
  have hmem : (check_and_execute_buy cfg cap st symbol false inp).1.bought_today.contains
      symbol = true := by
    simp [hst1]
  refine ⟨hmem, ?_, ?_⟩
  · intro cfg2 cap2 dry2 inp2
    have hm : symbol ∈ (check_and_execute_buy cfg cap st symbol false inp).1.bought_today := by
      rw [hst1]; exact List.mem_cons_self _ _
    exact check_skips_when_guarded cfg2 cap2 _ symbol dry2 inp2 hm
  · simp only [manual_buy_blocked, Bool.or_eq_true]
    right
    simpa using hmem

/-- Claim C9 witness: the theorem applied to an empty engine state and
a broker rejecting both modes. -/
theorem c9_failed_buy_blocks_witness :
    (check_and_execute_buy ⟨2, 3, 5⟩ ⟨100000, 70, 5⟩ ⟨[], [], [], [], []⟩
          "GOLDBEES" false
          ⟨some 100, none, some 98, OrderAttempt.rejectedBoth, true, true⟩).1.bought_today.contains
        "GOLDBEES" = true ∧
      (∀ (cfg2 : Config) (cap2 : CapitalState) (dry2 : Bool) (inp2 : BuyInputs),
        check_and_execute_buy cfg2 cap2
            (check_and_execute_buy ⟨2, 3, 5⟩ ⟨100000, 70, 5⟩
                ⟨[], [], [], [], []⟩ "GOLDBEES" false
                ⟨some 100, none, some 98, OrderAttempt.rejectedBoth, true,
                  true⟩).1 "GOLDBEES" dry2 inp2 =
          ((check_and_execute_buy ⟨2, 3, 5⟩ ⟨100000, 70, 5⟩
              ⟨[], [], [], [], []⟩ "GOLDBEES" false
              ⟨some 100, none, some 98, OrderAttempt.rejectedBoth, true,
                true⟩).1,
            BuyResult.skipMemory,
            { quote_calls := 0, order_calls := 0 })) ∧
      manual_buy_blocked
        (check_and_execute_buy ⟨2, 3, 5⟩ ⟨100000, 70, 5⟩ ⟨[], [], [], [], []⟩
            "GOLDBEES" false
            ⟨some 100, none, some 98, OrderAttempt.rejectedBoth, true,
              true⟩).1 "GOLDBEES" = true :=
  c9_failed_buy_blocks_session ⟨2, 3, 5⟩ ⟨100000, 70, 5⟩
    ⟨[], [], [], [], []⟩ "GOLDBEES"
    ⟨some 100, none, some 98, OrderAttempt.rejectedBoth, true, true⟩ 100 98 0
    (by simp [buy_gate, has_open_db_position])
    rfl rfl
    (by norm_num [should_buy])
    (by norm_num [calculate_dynamic_trade_quantity, per_trade_allocation,
      deployment_capital, calculate_allocated_capital, pyInt])
    rfl

/-- Claim C9 counterexample: starting from an empty state, a failed
live buy (both modes rejected) leaves the symbol in the guard set; a
later polling tick with the same fresh gap signal is rejected at the
gate (no broker call, no trade appended), and the manual path is
blocked too — refuting the claim that the failure is terminal only for
that cycle. -/
theorem c9_retry_blocked_concretely :
    (check_and_execute_buy ⟨2, 3, 5⟩ ⟨100000, 70, 5⟩ ⟨[], [], [], [], []⟩
          "NIFTYBEES" false
          ⟨some 200, none, some 195, OrderAttempt.rejectedBoth, true, true⟩).2.1 =
        BuyResult.liveFailed ∧
      (check_and_execute_buy ⟨2, 3, 5⟩ ⟨100000, 70, 5⟩
          (check_and_execute_buy ⟨2, 3, 5⟩ ⟨100000, 70, 5⟩
              ⟨[], [], [], [], []⟩ "NIFTYBEES" false
              ⟨some 200, none, some 195, OrderAttempt.rejectedBoth, true,
                true⟩).1 "NIFTYBEES" false
          ⟨some 200, none, some 195, OrderAttempt.filled 195 17 "MTF", true,
            true⟩).2.1 = BuyResult.skipMemory ∧
      (check_and_execute_buy ⟨2, 3, 5⟩ ⟨100000, 70, 5⟩
          (check_and_execute_buy ⟨2, 3, 5⟩ ⟨100000, 70, 5⟩
              ⟨[], [], [], [], []⟩ "NIFTYBEES" false
              ⟨some 200, none, some 195, OrderAttempt.rejectedBoth, true,
                true⟩).1 "NIFTYBEES" false
          ⟨some 200, none, some 195, OrderAttempt.filled 195 17 "MTF", true,
            true⟩).2.2.order_calls = 0 ∧
      manual_buy_blocked
        (check_and_execute_buy ⟨2, 3, 5⟩ ⟨100000, 70, 5⟩ ⟨[], [], [], [], []⟩
            "NIFTYBEES" false
            ⟨some 200, none, some 195, OrderAttempt.rejectedBoth, true,
              true⟩).1 "NIFTYBEES" = true := by
  refine ⟨?_, ?_, ?_, ?_⟩ <;>
    norm_num [check_and_execute_buy, buy_gate, resolve_prev_close,
      has_open_db_position, should_buy, calculate_dynamic_trade_quantity,
      per_trade_allocation, deployment_capital, calculate_allocated_capital,
      pyInt, execute_live_buy, manual_buy_blocked, has_active_position,
      has_pending_gtt]

/-- Claim C3 (amended): the housekeeping purge deletes exactly the
rows with status SOLD and returns their count — TARGET_HIT rows are
retained.  Consequently, after a housekeeping pass a symbol whose
(unique) row is SOLD is eligible again (row gone, the monitor tick
would attempt a buy), while a symbol whose row is TARGET_HIT is only
removed from the in-memory guard set: its row survives the purge and
the monitor tick keeps skipping it, so it is not eligible for a new
automatic buy. -/
theorem c3_housekeeping_purge (st : EngineState) (s : String) (p : Position)
    (v : Rat) (hWF : positionsWF st.positions)
    (hfind : st.positions.find? (fun q => q.symbol == s) = some p) :
    ((cleanup_sold_positions st.positions).2 =
        (st.positions.filter (fun q => q.status == PosStatus.SOLD)).length ∧
      (cleanup_sold_positions st.positions).1 =
        st.positions.filter (fun q => !(q.status == PosStatus.SOLD))) ∧
    (p.status = PosStatus.TARGET_HIT →
      (monitor_housekeeping st).1.bought_today.contains s = false ∧
        monitor_tick_action (monitor_housekeeping st).1.positions s (some v) =
          TickAction.closedSkip) ∧
    (p.status = PosStatus.SOLD →
      monitor_tick_action (monitor_housekeeping st).1.positions s (some v) =
        TickAction.attemptBuy) := by
  have hps : p.symbol = s := by simpa using List.find?_some hfind
  have hpmem : p ∈ st.positions := List.mem_of_find?_eq_some hfind
  refine ⟨⟨rfl, rfl⟩, ?_, ?_⟩
  · intro hth
    have hclosed : st.positions.any (fun q =>
        q.symbol == s &&
          (q.status == PosStatus.TARGET_HIT || q.status == PosStatus.SOLD)) =
        true := by
      rw [List.any_eq_true]
      exact ⟨p, hpmem, by simp [hps, hth]⟩
    constructor
    · simp only [monitor_housekeeping, cleanup_sold_positions]
      rw [Bool.eq_false_iff]
      intro hcontains
      have hsmem : s ∈ st.bought_today.filter (fun x => !(st.positions.any
          (fun q => q.symbol == x &&
            (q.status == PosStatus.TARGET_HIT || q.status == PosStatus.SOLD)))) := by
        simpa using hcontains
      have := (List.mem_filter.mp hsmem).2
      rw [hclosed] at this
      simp at this
    · have hfind' : ((monitor_housekeeping st).1.positions).find?
          (fun q => q.symbol == s) = some p := by
        have hWF' : positionsWF
            (st.positions.filter (fun q => !(q.status == PosStatus.SOLD))) :=
          hWF.sublist (List.Sublist.map Position.symbol (List.filter_sublist _))
        have hpmem' : p ∈ st.positions.filter
            (fun q => !(q.status == PosStatus.SOLD)) :=
          List.mem_filter.mpr ⟨hpmem, by simp [hth]⟩
        simpa [monitor_housekeeping, cleanup_sold_positions] using
          find?_symbol_of_WF_mem hWF' hpmem' (by simp [hps])
      simp [monitor_tick_action, hfind', hth]
  · intro hsold
    have hfind' : ((monitor_housekeeping st).1.positions).find?
        (fun q => q.symbol == s) = none := by
      simp only [monitor_housekeeping, cleanup_sold_positions]
      rw [List.find?_eq_none]
      intro q hq
      have hqm := List.mem_filter.mp hq
      intro hqs
      have : q = p := symbol_inj_of_WF hWF hqm.1 hpmem (by
        have h1 : q.symbol = s := by simpa using hqs
        rw [h1, hps])
      rw [this, hsold] at hqm
      simp at hqm
    simp [monitor_tick_action, hfind']

/-- Claim C3 witness: the theorem applied to a state with a single
TARGET_HIT row for symbol A held in the guard set — housekeeping clears
the guard entry, but the tick still skips the symbol. -/
theorem c3_housekeeping_purge_witness :
    (monitor_housekeeping
        ⟨[{ symbol := "A", qty := 5, avg_buy_price := 100, buy_timestamp := "",
            target_price := 103, status := PosStatus.TARGET_HIT,
            product := "CNC" }], [], ["A"], [], []⟩).1.bought_today.contains
        "A" = false ∧
      monitor_tick_action
        (monitor_housekeeping
          ⟨[{ symbol := "A", qty := 5, avg_buy_price := 100, buy_timestamp := "",
              target_price := 103, status := PosStatus.TARGET_HIT,
              product := "CNC" }], [], ["A"], [], []⟩).1.positions "A"
        (some 100) = TickAction.closedSkip :=
  (c3_housekeeping_purge
    ⟨[{ symbol := "A", qty := 5, avg_buy_price := 100, buy_timestamp := "",
        target_price := 103, status := PosStatus.TARGET_HIT,
        product := "CNC" }], [], ["A"], [], []⟩ "A"
    { symbol := "A", qty := 5, avg_buy_price := 100, buy_timestamp := "",
      target_price := 103, status := PosStatus.TARGET_HIT, product := "CNC" }
    100 (by simp [positionsWF]) (by simp)).2.1 rfl

/-- Claim C3 counterexample: a table whose only row has status
TARGET_HIT.  The claim demands that the purge delete the row and return
1; `cleanup_sold_positions` returns 0 and keeps the row, and even after
the housekeeping pass the monitor tick still skips the symbol instead
of buying. -/
theorem c3_target_hit_not_purged :
    (cleanup_sold_positions
        [{ symbol := "A", qty := 5, avg_buy_price := 100, buy_timestamp := "",
           target_price := 103, status := PosStatus.TARGET_HIT,
           product := "CNC" }]).2 = 0 ∧
      (cleanup_sold_positions
        [{ symbol := "A", qty := 5, avg_buy_price := 100, buy_timestamp := "",
           target_price := 103, status := PosStatus.TARGET_HIT,
           product := "CNC" }]).1 =
        [{ symbol := "A", qty := 5, avg_buy_price := 100, buy_timestamp := "",
           target_price := 103, status := PosStatus.TARGET_HIT,
           product := "CNC" }] ∧
      monitor_tick_action
        (monitor_housekeeping
          ⟨[{ symbol := "A", qty := 5, avg_buy_price := 100,
              buy_timestamp := "", target_price := 103,
              status := PosStatus.TARGET_HIT, product := "CNC" }], [], ["A"],
            [], []⟩).1.positions "A" (some 100) = TickAction.closedSkip := by
  refine ⟨?_, ?_, ?_⟩ <;>
    simp [cleanup_sold_positions, monitor_housekeeping, monitor_tick_action,
      List.find?]

/-- Claim C7: evaluation at the failing input.  One remote GTT stuck at
status TRIGGERED (a BUY leg of 5 shares) with an available price: two
consecutive `monitor_gtt_executions` passes with no intervening remote
change each attempt a protective sell placement — two attempts in
total, even though the first pass already set the local row to
TRIGGERED, because no local status check gates the placement. -/
theorem c7_reconcile_places_twice :
    (monitor_gtt_executions ⟨2, 3, 5⟩
        [{ id := "1", status := "TRIGGERED", tradingsymbol := "GOLDBEES",
           orders := [{ transaction_type := "BUY", quantity := 5 }] }]
        (fun _ => some 100)
        [{ symbol := "GOLDBEES", gtt_id := "1", trigger_type := "single",
           trigger_price := 98, order_type := "MARKET", quantity := 5,
           price := none, condition := "<=",
           status := GttStatus.ACTIVE }]).2.length = 1 ∧
      (monitor_gtt_executions ⟨2, 3, 5⟩
        [{ id := "1", status := "TRIGGERED", tradingsymbol := "GOLDBEES",
           orders := [{ transaction_type := "BUY", quantity := 5 }] }]
        (fun _ => some 100)
        [{ symbol := "GOLDBEES", gtt_id := "1", trigger_type := "single",
           trigger_price := 98, order_type := "MARKET", quantity := 5,
           price := none, condition := "<=",
           status := GttStatus.ACTIVE }]).1 =
        [{ symbol := "GOLDBEES", gtt_id := "1", trigger_type := "single",
           trigger_price := 98, order_type := "MARKET", quantity := 5,
           price := none, condition := "<=",
           status := GttStatus.TRIGGERED }] ∧
      (monitor_gtt_executions ⟨2, 3, 5⟩
        [{ id := "1", status := "TRIGGERED", tradingsymbol := "GOLDBEES",
           orders := [{ transaction_type := "BUY", quantity := 5 }] }]
        (fun _ => some 100)
        (monitor_gtt_executions ⟨2, 3, 5⟩
          [{ id := "1", status := "TRIGGERED", tradingsymbol := "GOLDBEES",
             orders := [{ transaction_type := "BUY", quantity := 5 }] }]
          (fun _ => some 100)
          [{ symbol := "GOLDBEES", gtt_id := "1", trigger_type := "single",
             trigger_price := 98, order_type := "MARKET", quantity := 5,
             price := none, condition := "<=",
             status := GttStatus.ACTIVE }]).1).2.length = 1 := by
  refine ⟨?_, ?_, ?_⟩ <;>
    norm_num [monitor_gtt_executions, update_gtt_status]

end ETFTrader
